import Mathlib

/-!
Verification development for the `beautiful_oops` library.

This file gives a shallow embedding, in Lean 4, of the parts of the
library that the specification's claims are about:

* `core/oops.py` — the failure classifier (`_classify_exception`,
  `_guess_http_status`, `_safe_message_by_category`, `_default_advise`)
  and the normalized-error constructor (`OopsError.__init__`,
  `OopsError.of`);
* `plugins/models/storybook.py` — the trace aggregator (`StoryNode`,
  `Treasure`, `Tear`, `StoryBook` with `_ensure_node`, `enter`,
  `attempt_enter`, `attempt_success`, `attempt_fail`, `fail`,
  `get_children`, `render_ascii`).

Modelling conventions:

* Python exceptions are modelled by the inductive `Exc`: either a raw
  exception described by the attributes the classifier inspects
  (`RawInfo`), or an already-normalized `OopsError` (constructor
  `Exc.oops`, carrying the fields the Python class stores).
* Python truthiness is modelled explicitly where the code relies on it
  (`x or y` on strings and optional values, `if not self.finished_at`,
  `if note:`, `if oops ... else`).
* Wall-clock time is modelled as integer ticks passed explicitly to each
  operation (`now : Nat`); `time.time()` never returns `0`, which shows
  up as positivity hypotheses where the code tests truthiness of a
  timestamp.  Duration formatting (`%.2f`) is abstracted to decimal
  printing of the tick difference.
* Python `dict` (insertion ordered) is an association list with
  first-match lookup; in-place mutation of a node held by the dict is a
  functional update of the entry.
* `str(e)` and `e.__class__.__name__` are fields of `RawInfo`; for an
  `OopsError`, `str` is its `message` (it is a `RuntimeError`
  constructed with that single argument) and the class name is
  `"OopsError"`.
-/

namespace BeautifulOops

/-- Substring test on character lists: `isPref p s` is Python
`s.startswith(p)` on the decomposed strings. -/
def isPref : List Char → List Char → Bool
  | [], _ => true
  | _ :: _, [] => false
  | p :: ps, c :: cs => if p = c then isPref ps cs else false

/-- `containsB pat s` is the Python substring test `pat in s` on character
lists. -/
def containsB : List Char → List Char → Bool
  | pat, [] => isPref pat []
  | pat, c :: cs => isPref pat (c :: cs) || containsB pat cs

/-- Python `pat in s` for strings. -/
def strContains (s pat : String) : Bool := containsB pat.data s.data

/-- Python `a or b` for strings (`""` is falsy). -/
def strOr (a b : String) : String := if a = "" then b else a

/-- Python `a or b` when `a` is an optional integer attribute (`None`
and `0` are falsy). -/
def intOr (a b : Option Int) : Option Int :=
  match a with
  | some x => if x = 0 then b else some x
  | none => b

/-- `OopsSolution` from `core/oops.py`. -/
inductive OopsSolution where
  | RETRY
  | ABORT
  | IGNORE
  | FALLBACK
deriving DecidableEq, Repr

/-- `OopsCategory` from `core/oops.py`.  (Constructor names are
lower-case; the Python enum members are upper-case.) -/
inductive OopsCategory where
  | io
  | network
  | timeout
  | auth
  | rate_limit
  | bad_request
  | validation
  | unknown
deriving DecidableEq, Repr

/-- The attributes of an attached `response` object that
`_guess_http_status` inspects: `status_code` and `status`, each present
and `int`-valued or absent. -/
structure RespInfo where
  statusCode : Option Int := none
  statusAttr : Option Int := none
deriving DecidableEq, Repr

/-- The attributes of a raw (non-`OopsError`) Python exception that the
classifier inspects: the `isinstance` facts used by steps 1–4, the
`errno` attribute, the attached `response` and direct `status_code` /
`status` attributes, `str(e)` and the class name. -/
structure RawInfo where
  isTimeoutInst : Bool := false
  isConnInst : Bool := false
  isValidationInst : Bool := false
  isOSErrorInst : Bool := false
  errnoAttr : Option Int := none
  response : Option RespInfo := none
  statusCode : Option Int := none
  statusAttr : Option Int := none
  strRepr : String := ""
  typeName : String := "Exception"
deriving DecidableEq, Repr

/-- A Python exception as seen by `core/oops.py`: raw, or an
`OopsError` with the fields `__init__` stores (`extra` keeps only its
integer entries, the single kind the code ever inserts). -/
inductive Exc where
  | raw (i : RawInfo)
  | oops (cause : Exc) (message safe_message : String)
      (category : OopsCategory) (advise : OopsSolution)
      (extra : List (String × Int))
deriving DecidableEq, Repr

/-- `str(e)`. -/
def Exc.strOf : Exc → String
  | .raw i => i.strRepr
  | .oops _ m _ _ _ _ => m

/-- `e.__class__.__name__`. -/
def Exc.typeNameOf : Exc → String
  | .raw i => i.typeName
  | .oops _ _ _ _ _ _ => "OopsError"

/-- `isinstance(e, (asyncio.TimeoutError, TimeoutError, socket.timeout))`. -/
def Exc.isTimeoutLike : Exc → Bool
  | .raw i => i.isTimeoutInst
  | .oops _ _ _ _ _ _ => false

/-- `isinstance(e, (ConnectionError, ..., http.client.CannotSendHeader))`. -/
def Exc.isConnLike : Exc → Bool
  | .raw i => i.isConnInst
  | .oops _ _ _ _ _ _ => false

/-- `isinstance(e, (ValueError, TypeError, AssertionError))`. -/
def Exc.isValidationLike : Exc → Bool
  | .raw i => i.isValidationInst
  | .oops _ _ _ _ _ _ => false

/-- `isinstance(e, OSError)`. -/
def Exc.isOSErrorLike : Exc → Bool
  | .raw i => i.isOSErrorInst
  | .oops _ _ _ _ _ _ => false

/-- `getattr(e, "errno", None)`. -/
def Exc.errnoOf : Exc → Option Int
  | .raw i => i.errnoAttr
  | .oops _ _ _ _ _ _ => none

/-- The fixed I/O errno set `{EIO, EROFS, ENOSPC, ENOENT, EACCES}`
(Linux values 5, 30, 28, 2, 13). -/
def ioErrnos : List Int := [5, 30, 28, 2, 13]

/-- `_guess_http_status` from `core/oops.py`.  The loop body first looks
at `e.response` (taking `response.status_code or response.status` when
that is an `int`), then at the direct attribute; since the `response`
probe is identical in both iterations, the function reduces to:
response-derived code, else direct `status_code`, else direct
`status`. -/
def guessHttpStatus : Exc → Option Int
  | .oops _ _ _ _ _ _ => none
  | .raw i =>
    let respCode := i.response.bind fun r => intOr r.statusCode r.statusAttr
    respCode <|> i.statusCode <|> i.statusAttr

/-- `_classify_exception` from `core/oops.py`, translated clause by
clause; returns `(category, http_status)`. -/
def classifyException (e : Exc) (message : String) :
    OopsCategory × Option Int :=
  if e.isTimeoutLike then (.timeout, none)
  else if e.isConnLike then (.network, none)
  else if e.isValidationLike then (.validation, none)
  else if e.isOSErrorLike && (match e.errnoOf with
      | some n => decide (n ∈ ioErrnos)
      | none => false) then (.io, none)
  else
    let status := guessHttpStatus e
    let mapped : Option (OopsCategory × Option Int) :=
      match status with
      | some s =>
        if s = 429 then some (.rate_limit, some s)
        else if s = 401 ∨ s = 403 then some (.auth, some s)
        else if 500 ≤ s ∧ s ≤ 599 then some (.network, some s)
        else if s = 408 then some (.timeout, some s)
        else none
      | none => none
    match mapped with
    | some r => r
    | none =>
      if strContains message "service unavailable" ||
          strContains message "socket closed" then (.network, some 503)
      else if strContains message "validation" ||
          strContains message "invalid" ||
          strContains message "schema" then (.validation, some 400)
      else if strContains message "badrequest" ||
          strContains message "invalid_request_error" then
        (.bad_request, some 400)
      else (.unknown, status)

/-- `_safe_message_by_category` from `core/oops.py`. -/
def safeMessageByCategory : OopsCategory → String
  | .io => "File or disk access failed."
  | .network => "Network connection failed."
  | .timeout => "Operation timed out."
  | .auth => "Authentication failed. Please check credentials."
  | .rate_limit => "Too many requests. Please try again later."
  | .validation => "Input data validation failed."
  | .bad_request => "Invalid request format or missing required parameters."
  | .unknown => "An unexpected error occurred."

/-- `_default_advise` from `core/oops.py`. -/
def defaultAdvise : OopsCategory → OopsSolution
  | .timeout => .RETRY
  | .network => .RETRY
  | .rate_limit => .RETRY
  | .auth => .ABORT
  | .io => .FALLBACK
  | _ => .ABORT

/-- `dict.setdefault(k, v)` on the modelled `extra` bag. -/
def setdefault (l : List (String × Int)) (k : String) (v : Int) :
    List (String × Int) :=
  match l.lookup k with
  | some _ => l
  | none => l ++ [(k, v)]

/-- `OopsError.__init__` from `core/oops.py`: produces the stored
fields.  `message or str(cause) or cause.__class__.__name__`,
`category or auto_cat`, `safe_message or table`, `advise or default`,
`extra or {}` plus `setdefault("http_status", ...)` when a status was
recovered. -/
def oopsErrorInit (cause : Exc) (message safe_message : Option String)
    (category : Option OopsCategory) (advise : Option OopsSolution)
    (extra : Option (List (String × Int))) : Exc :=
  let msg := strOr (message.getD "")
    (strOr cause.strOf cause.typeNameOf)
  let auto := classifyException cause msg
  let cat := category.getD auto.1
  let sm := strOr (safe_message.getD "") (safeMessageByCategory cat)
  let adv := advise.getD (defaultAdvise cat)
  let ex := extra.getD []
  let ex := match auto.2 with
    | some s => setdefault ex "http_status" s
    | none => ex
  .oops cause msg sm cat adv ex

/-- `OopsError.of` from `core/oops.py`: `cls(cause=e)` with every other
argument defaulted. -/
def oopsErrorOf (e : Exc) : Exc :=
  oopsErrorInit e none none none none none

/-- Field accessors on a normalized error (the value is an `Exc.oops`;
on a raw exception they return the neutral defaults, which the code
never relies on). -/
def Exc.categoryOf : Exc → OopsCategory
  | .oops _ _ _ c _ _ => c
  | .raw _ => .unknown

def Exc.messageOf : Exc → String
  | .oops _ m _ _ _ _ => m
  | .raw i => i.strRepr

def Exc.safeMessageOf : Exc → String
  | .oops _ _ sm _ _ _ => sm
  | .raw _ => ""

def Exc.extraOf : Exc → List (String × Int)
  | .oops _ _ _ _ _ ex => ex
  | .raw _ => []

def Exc.causeOf : Exc → Option Exc
  | .oops c _ _ _ _ _ => some c
  | .raw _ => none

end BeautifulOops

namespace BeautifulOops

/-- `NodeType` from `plugins/models/storybook.py`. -/
inductive NodeType where
  | MOMENT
  | ATTEMPT
deriving DecidableEq, Repr

/-- `NodeStatus` from `plugins/models/storybook.py`. -/
inductive NodeStatus where
  | RUNNING
  | SUCCESS
  | FAILED
deriving DecidableEq, Repr

/-- A Python value stored as a node result / treasure value (the code
treats it as opaque `Any`). -/
inductive PyVal where
  | pyNone
  | pyInt (n : Int)
  | pyStr (s : String)
deriving DecidableEq, Repr

/-- `StoryNode` from `plugins/models/storybook.py`. -/
structure StoryNode where
  node_id : String
  node_type : NodeType
  chapter : String
  stage : String
  attempt : Option Nat := none
  parent_id : Option String := none
  status : NodeStatus := .RUNNING
  started_at : Nat
  finished_at : Option Nat := none
  note : Option String := none
  result : PyVal := .pyNone
  error : Option String := none
  children : List String := []
deriving DecidableEq, Repr

/-- Python truthiness of the `finished_at` field (`None` and `0.0` are
falsy). -/
def optTimeTruthy : Option Nat → Bool
  | none => false
  | some t => t != 0

/-- `StoryNode.close`: sets `finished_at` only when it is still falsy,
always overwrites `status`, and sets `note` only when the given note is
truthy (non-`None`, non-empty). -/
def StoryNode.close (n : StoryNode) (status : NodeStatus)
    (note : Option String) (now : Nat) : StoryNode :=
  let n := if optTimeTruthy n.finished_at then n
    else { n with finished_at := some now }
  let n := { n with status := status }
  match note with
  | some s => if s = "" then n else { n with note := some s }
  | none => n

/-- `Treasure` from `plugins/models/storybook.py`. -/
structure Treasure where
  chapter : String
  stage : String
  value : PyVal
  at_time : Nat
deriving DecidableEq, Repr

/-- `Tear` from `plugins/models/storybook.py`. -/
structure Tear where
  chapter : String
  stage : String
  error : String
  at_time : Nat
deriving DecidableEq, Repr

/-- Association-list lookup with first-match semantics, modelling
`dict.get`. -/
def alookup {α : Type} : List (String × α) → String → Option α
  | [], _ => none
  | (k, v) :: rest, key => if k = key then some v else alookup rest key

/-- In-place update of the entry at a key (Python mutates the object the
dict already holds; insertion order is preserved). -/
def aupdate {α : Type} : List (String × α) → String → α →
    List (String × α)
  | [], _, _ => []
  | p :: rest, key, nv =>
    if p.1 = key then (key, nv) :: aupdate rest key nv
    else p :: aupdate rest key nv

/-- `StoryBook` from `plugins/models/storybook.py`: `nodes` is the
insertion-ordered id→node dict, `roots` the list of root moment ids. -/
structure StoryBook where
  title : String
  nodes : List (String × StoryNode) := []
  roots : List String := []
  treasures : List Treasure := []
  tears : List Tear := []
deriving DecidableEq, Repr

namespace StoryBook

/-- `StoryBook.build_moment_id`. -/
def build_moment_id (trace_id chapter stage : String) : String :=
  trace_id ++ ":" ++ chapter ++ "/" ++ stage

/-- `StoryBook.build_attempt_id`. -/
def build_attempt_id (trace_id chapter stage : String) (attempt : Nat) :
    String :=
  trace_id ++ ":" ++ chapter ++ "/" ++ stage ++ "#" ++ toString attempt

/-- `StoryBook.parse_moment_id_from_attempt`:
`attempt_id.split("#", 1)[0]`. -/
def parse_moment_id_from_attempt (attempt_id : String) : String :=
  String.mk (attempt_id.data.takeWhile fun c => c ≠ '#')

/-- Append `node_id` to `parent.children` when the parent exists and
does not already list it (the inner body of `_ensure_node`'s two parent
branches). -/
def addChild (b : StoryBook) (pid node_id : String) : StoryBook :=
  match alookup b.nodes pid with
  | none => b
  | some parent =>
    if node_id ∈ parent.children then b
    else
      let parent := { parent with children := parent.children ++ [node_id] }
      { b with nodes := aupdate b.nodes pid parent }

/-- `StoryBook._ensure_node`.  The node is inserted into the dict before
the parent checks (as in the source, where the parent lookup can
therefore see the new node).  Returns the book and the node the Python
method returns (the freshly created record; parent-side mutation never
touches the returned node's own fields unless the node is its own
parent, a case no claim depends on). -/
def ensure_node (b : StoryBook) (node_id : String) (node_type : NodeType)
    (chapter stage : String) (attempt : Option Nat)
    (parent_id : Option String) (now : Nat) : StoryBook × StoryNode :=
  match alookup b.nodes node_id with
  | some node => (b, node)
  | none =>
    let node : StoryNode :=
      { node_id := node_id, node_type := node_type, chapter := chapter,
        stage := stage, attempt := attempt, parent_id := parent_id,
        started_at := now }
    let b := { b with nodes := b.nodes ++ [(node_id, node)] }
    let b :=
      if node_type = .MOMENT then
        match parent_id with
        | none => { b with roots := b.roots ++ [node_id] }
        | some pid => addChild b pid node_id
      else
        match parent_id with
        | some pid => if pid = "" then b else addChild b pid node_id
        | none => b
    (b, node)

/-- `StoryBook.enter`. -/
def enter (b : StoryBook) (trace_id chapter stage : String)
    (parent_span_id : Option String) (now : Nat) : StoryBook × String :=
  let moment_id := build_moment_id trace_id chapter stage
  let b := (ensure_node b moment_id .MOMENT chapter stage none
    parent_span_id now).1
  (b, moment_id)

/-- Python `a or b` where `a` is an optional string (`None` and `""`
are falsy). -/
def optStrOr (a : Option String) (b : String) : String :=
  match a with
  | some s => if s = "" then b else s
  | none => b

/-- `StoryBook.attempt_enter`. -/
def attempt_enter (b : StoryBook) (trace_id chapter stage : String)
    (attempt : Nat) (span_id parent_span_id : Option String) (now : Nat) :
    StoryBook × String :=
  let attempt_id := optStrOr span_id
    (build_attempt_id trace_id chapter stage attempt)
  let parent_id := optStrOr parent_span_id
    (parse_moment_id_from_attempt attempt_id)
  let b := (ensure_node b parent_id .MOMENT chapter stage none none now).1
  let b := (ensure_node b attempt_id .ATTEMPT chapter stage (some attempt)
    (some parent_id) now).1
  (b, attempt_id)

/-- `getattr(oops, "message", str(oops))` for the `oops` argument: an
`OopsError` exposes its `message` attribute; a raw exception has no
`message` attribute, so `str(oops)` is used. -/
def oopsMessageAttr : Exc → String
  | .oops _ m _ _ _ _ => m
  | .raw i => i.strRepr

/-- `StoryBook.attempt_success`. -/
def attempt_success (b : StoryBook) (attempt_id : String) (result : PyVal)
    (now : Nat) : StoryBook :=
  match alookup b.nodes attempt_id with
  | none => b
  | some node =>
    let node := { node with result := result }
    let node := node.close .SUCCESS none now
    let b := { b with nodes := aupdate b.nodes attempt_id node }
    let parent_id := optStrOr node.parent_id
      (parse_moment_id_from_attempt attempt_id)
    let b : StoryBook :=
      match alookup b.nodes parent_id with
      | some m =>
        if m.status = NodeStatus.RUNNING then
          let m := m.close .SUCCESS none now
          { b with nodes := aupdate b.nodes parent_id m }
        else b
      | none => b
    { b with treasures := b.treasures ++
      [{ chapter := node.chapter, stage := node.stage, value := result,
         at_time := now }] }

/-- `StoryBook.attempt_fail`.  `oops` is the exception or `None`; the
recorded error is `getattr(oops, "message", str(oops))` when `oops` is
truthy, `"unknown"` otherwise, and it is passed as the close note. -/
def attempt_fail (b : StoryBook) (attempt_id : String) (oops : Option Exc)
    (now : Nat) : StoryBook :=
  match alookup b.nodes attempt_id with
  | none => b
  | some node =>
    let err := match oops with
      | some o => oopsMessageAttr o
      | none => "unknown"
    let node := { node with error := some err }
    let node := node.close .FAILED (some err) now
    { b with nodes := aupdate b.nodes attempt_id node }

/-- `StoryBook.fail`.  With `oops = None` the recorded text is
`str(None) = "None"` (this call has no `if oops` guard). -/
def fail (b : StoryBook) (trace_id chapter stage : String)
    (oops : Option Exc) (now : Nat) : StoryBook :=
  let moment_id := build_moment_id trace_id chapter stage
  let bm := ensure_node b moment_id .MOMENT chapter stage none none now
  let b := bm.1
  let m := bm.2
  let err := match oops with
    | some o => oopsMessageAttr o
    | none => "None"
  let m := { m with error := some err }
  let m := m.close .FAILED (some err) now
  let b := { b with nodes := aupdate b.nodes moment_id m }
  { b with tears := b.tears ++
    [{ chapter := chapter, stage := stage, error := err, at_time := now }] }

/-- `StoryBook.get_roots`. -/
def get_roots (b : StoryBook) : List StoryNode :=
  b.roots.filterMap fun rid => alookup b.nodes rid

/-- `StoryBook.get_children`. -/
def get_children (b : StoryBook) (node_id : String) : List StoryNode :=
  match alookup b.nodes node_id with
  | none => []
  | some node => node.children.filterMap fun cid => alookup b.nodes cid

/-- The status glyph of `render_ascii` (`mark`). -/
def mark (n : StoryNode) : String :=
  if n.status = .SUCCESS then "✅"
  else if n.status = .FAILED then "💀" else "⏳"

/-- The node tag of `render_ascii` (`tag`); an attempt with `attempt
= None` prints as Python would format `None`. -/
def tag (n : StoryNode) : String :=
  if n.node_type = .MOMENT then "[M]"
  else "[A#" ++ (match n.attempt with
    | some a => toString a
    | none => "None") ++ "]"

/-- The elapsed-time suffix of `render_ascii` (`dur`); zero-truncated
tick difference in place of the float `%.2f` rendering. -/
def dur (show_time : Bool) (n : StoryNode) : String :=
  if !show_time then ""
  else match n.finished_at with
    | none => ""
    | some f => " ⏱ " ++ toString (f - n.started_at) ++ "s"

/-- The line `walk` emits for one node. -/
def nodeLine (show_time : Bool) (pre : String) (is_last : Bool)
    (n : StoryNode) : String :=
  pre ++ (if is_last then "┗━━" else "┣━━") ++ " " ++ tag n ++ " " ++
    n.chapter ++ "/" ++ n.stage ++ " " ++ mark n ++ dur show_time n

/-- The inner recursion `walk` of `render_ascii`, with an explicit fuel
bounding the recursion depth (Python relies on the interpreter stack;
any state reachable through the aggregator API is acyclic, and the fuel
used by `render_lines` covers every such state). -/
def walk (b : StoryBook) (show_time : Bool) :
    Nat → String → String → Bool → List String
  | 0, _, _, _ => []
  | fuel + 1, node_id, pre, is_last =>
    match alookup b.nodes node_id with
    | none => []
    | some node =>
      let line := nodeLine show_time pre is_last node
      let children := get_children b node_id
      if children.isEmpty then [line]
      else
        let child_pre := pre ++ (if is_last then "    " else "┃   ")
        line :: (children.enum.flatMap fun ci =>
          walk b show_time fuel ci.2.node_id child_pre
            (ci.1 = children.length - 1))

/-- The top-level root loop of `render_ascii`: iterates over the roots
present in the dict, comparing the running index against
`len(self.roots) - 1` (the unfiltered length, as in the source). -/
def renderRoots (b : StoryBook) (show_time : Bool) (fuel total : Nat) :
    Nat → List String → List String
  | _, [] => []
  | idx, rid :: rest =>
    walk b show_time fuel rid "" (idx = total - 1) ++
      renderRoots b show_time fuel total (idx + 1) rest

/-- The list of lines `render_ascii` joins. -/
def render_lines (b : StoryBook) (show_time : Bool) : List String :=
  let present := b.roots.filter fun rid => (alookup b.nodes rid).isSome
  renderRoots b show_time (b.nodes.length + 1) b.roots.length 0 present

/-- `"\n".join(lines)`. -/
def joinLines : List String → String
  | [] => ""
  | [l] => l
  | l :: rest => l ++ "\n" ++ joinLines rest

/-- `StoryBook.render_ascii`. -/
def render_ascii (b : StoryBook) (show_time : Bool) : String :=
  joinLines (render_lines b show_time)

end StoryBook

end BeautifulOops

namespace BeautifulOops

/-! ### Helper lemmas about the embedded dictionary -/

theorem alookup_append_of_none {α : Type} (l : List (String × α))
    (k : String) (v : α) (h : alookup l k = none) :
    alookup (l ++ [(k, v)]) k = some v := by
  induction l with
  | nil => simp [alookup]
  | cons p rest ih =>
    obtain ⟨a, c⟩ := p
    by_cases hak : a = k
    · subst hak
      simp [alookup] at h
    · simp only [List.cons_append, alookup, hak, if_false, if_neg hak] at h ⊢
      exact ih h

theorem aupdate_of_none {α : Type} (l : List (String × α)) (k : String)
    (v : α) (h : alookup l k = none) : aupdate l k v = l := by
  induction l with
  | nil => rfl
  | cons p rest ih =>
    obtain ⟨a, c⟩ := p
    by_cases hak : a = k
    · subst hak
      simp [alookup] at h
    · simp only [alookup, if_neg hak] at h
      simp only [aupdate, if_neg hak, ih h]

theorem alookup_aupdate_self {α : Type} (l : List (String × α))
    (k : String) (v : α) (h : (alookup l k).isSome = true) :
    alookup (aupdate l k v) k = some v := by
  induction l with
  | nil => simp [alookup] at h
  | cons p rest ih =>
    obtain ⟨a, c⟩ := p
    by_cases hak : a = k
    · subst hak
      simp [aupdate, alookup]
    · simp only [alookup, if_neg hak] at h
      simp only [aupdate, if_neg hak, alookup]
      exact ih h

theorem alookup_aupdate_ne {α : Type} (l : List (String × α))
    (k key : String) (v : α) (h : key ≠ k) :
    alookup (aupdate l k v) key = alookup l key := by
  induction l with
  | nil => rfl
  | cons p rest ih =>
    obtain ⟨a, c⟩ := p
    by_cases hak : a = k
    · subst hak
      simp only [aupdate, if_pos rfl, alookup, if_neg (Ne.symm h),
        if_neg (fun hh : a = key => h (hh ▸ rfl))]
      exact ih
    · by_cases hakey : a = key
      · subst hakey
        simp [aupdate, if_neg hak, alookup]
      · simp only [aupdate, if_neg hak, alookup, if_neg hakey]
        exact ih

theorem alookup_aupdate_isSome {α : Type} (l : List (String × α))
    (k key : String) (v : α) :
    (alookup (aupdate l k v) key).isSome = (alookup l key).isSome := by
  by_cases hkey : key = k
  · subst hkey
    cases h : alookup l key with
    | none => rw [aupdate_of_none l key v h, h]
    | some w =>
      rw [alookup_aupdate_self l key v (by rw [h]; rfl)]
      rfl
  · rw [alookup_aupdate_ne l k key v hkey]

end BeautifulOops

namespace BeautifulOops

/-! ### Field lemmas about `StoryNode.close` -/

theorem close_status (n : StoryNode) (st : NodeStatus)
    (note : Option String) (now : Nat) : (n.close st note now).status = st := by
  unfold StoryNode.close
  cases note <;> split <;> (try split) <;> (try split) <;> simp_all

theorem close_finished_eq (n : StoryNode) (st : NodeStatus)
    (note : Option String) (now : Nat) :
    (n.close st note now).finished_at =
      (if optTimeTruthy n.finished_at then n.finished_at else some now) := by
  unfold StoryNode.close
  cases note <;> split <;> (try split) <;> (try split) <;> simp_all

theorem close_parent_id (n : StoryNode) (st : NodeStatus)
    (note : Option String) (now : Nat) :
    (n.close st note now).parent_id = n.parent_id := by
  unfold StoryNode.close
  cases note <;> split <;> (try split) <;> (try split) <;> simp_all

theorem close_chapter (n : StoryNode) (st : NodeStatus)
    (note : Option String) (now : Nat) :
    (n.close st note now).chapter = n.chapter := by
  unfold StoryNode.close
  cases note <;> split <;> (try split) <;> (try split) <;> simp_all

theorem close_stage (n : StoryNode) (st : NodeStatus)
    (note : Option String) (now : Nat) :
    (n.close st note now).stage = n.stage := by
  unfold StoryNode.close
  cases note <;> split <;> (try split) <;> (try split) <;> simp_all

theorem close_error (n : StoryNode) (st : NodeStatus)
    (note : Option String) (now : Nat) :
    (n.close st note now).error = n.error := by
  unfold StoryNode.close
  cases note <;> split <;> (try split) <;> (try split) <;> simp_all

theorem close_note_of_ne (n : StoryNode) (st : NodeStatus) (s : String)
    (now : Nat) (h : s ≠ "") : (n.close st (some s) now).note = some s := by
  unfold StoryNode.close
  split <;> (try split) <;> (try split) <;> simp_all

/-! ### Field lemmas about `ensure_node` and `addChild` -/

theorem addChild_isSome (b : StoryBook) (pid nid key : String) :
    (alookup (StoryBook.addChild b pid nid).nodes key).isSome =
      (alookup b.nodes key).isSome := by
  unfold StoryBook.addChild
  split
  · rfl
  · split
    · rfl
    · exact alookup_aupdate_isSome _ _ _ _

theorem addChild_tears (b : StoryBook) (pid nid : String) :
    (StoryBook.addChild b pid nid).tears = b.tears := by
  unfold StoryBook.addChild
  split
  · rfl
  · split <;> rfl

theorem ensure_node_isSome (b : StoryBook) (nid : String) (nt : NodeType)
    (ch st : String) (a : Option Nat) (p : Option String) (now : Nat) :
    (alookup (StoryBook.ensure_node b nid nt ch st a p now).1.nodes
      nid).isSome = true := by
  unfold StoryBook.ensure_node
  cases h : alookup b.nodes nid with
  | some w => simp [h]
  | none =>
    simp only [h]
    have hnew := alookup_append_of_none b.nodes nid
      { node_id := nid, node_type := nt, chapter := ch, stage := st,
        attempt := a, parent_id := p, started_at := now } h
    split
    · split
      · simp [hnew]
      · rw [addChild_isSome]
        simp [hnew]
    · split
      · split
        · simp [hnew]
        · rw [addChild_isSome]
          simp [hnew]
      · simp [hnew]

theorem ensure_node_tears (b : StoryBook) (nid : String) (nt : NodeType)
    (ch st : String) (a : Option Nat) (p : Option String) (now : Nat) :
    (StoryBook.ensure_node b nid nt ch st a p now).1.tears = b.tears := by
  unfold StoryBook.ensure_node
  cases h : alookup b.nodes nid with
  | some w => simp [h]
  | none =>
    simp only [h]
    split
    · split
      · rfl
      · rw [addChild_tears]
    · split
      · split
        · rfl
        · rw [addChild_tears]
      · rfl

end BeautifulOops

namespace BeautifulOops

/-! ### Substring lemmas -/

theorem isPref_self (l : List Char) : isPref l l = true := by
  induction l with
  | nil => rfl
  | cons c cs ih => simp [isPref, ih]

theorem isPref_append (p s t : List Char) (h : isPref p s = true) :
    isPref p (s ++ t) = true := by
  induction p generalizing s with
  | nil => rfl
  | cons c cs ih =>
    cases s with
    | nil => simp [isPref] at h
    | cons d ds =>
      simp only [isPref] at h
      by_cases hcd : c = d
      · subst hcd
        simp only [if_pos rfl] at h
        simp only [List.cons_append, isPref, if_pos rfl]
        exact ih ds h
      · simp [if_neg hcd] at h

theorem containsB_of_isPref (pat s : List Char) (h : isPref pat s = true) :
    containsB pat s = true := by
  cases s with
  | nil => simpa [containsB] using h
  | cons c cs => simp [containsB, h]

theorem containsB_append_right (pat s t : List Char)
    (h : containsB pat s = true) : containsB pat (s ++ t) = true := by
  induction s with
  | nil =>
    simp only [containsB] at h
    exact containsB_of_isPref _ _ (isPref_append _ _ t h)
  | cons c cs ih =>
    simp only [containsB, Bool.or_eq_true] at h
    rcases h with h | h
    · exact containsB_of_isPref _ _ (by simpa using isPref_append _ _ t h)
    · have := ih h
      simp [containsB, this]

theorem containsB_append_left (pat s t : List Char)
    (h : containsB pat t = true) : containsB pat (s ++ t) = true := by
  induction s with
  | nil => simpa using h
  | cons c cs ih => simp [containsB, ih]

theorem containsB_self (l : List Char) : containsB l l = true :=
  containsB_of_isPref _ _ (isPref_self l)

theorem strContains_append_right (s t pat : String)
    (h : strContains s pat = true) : strContains (s ++ t) pat = true := by
  unfold strContains at h ⊢
  rw [String.data_append]
  exact containsB_append_right _ _ _ h

theorem strContains_append_left (s t pat : String)
    (h : strContains t pat = true) : strContains (s ++ t) pat = true := by
  unfold strContains at h ⊢
  rw [String.data_append]
  exact containsB_append_left _ _ _ h

theorem strContains_self (s : String) : strContains s s = true :=
  containsB_self s.data

theorem strContains_joinLines (L : List String) (line pat : String)
    (hmem : line ∈ L) (h : strContains line pat = true) :
    strContains (StoryBook.joinLines L) pat = true := by
  induction L with
  | nil => cases hmem
  | cons l rest ih =>
    cases rest with
    | nil =>
      rcases List.mem_cons.mp hmem with hl | hl
      · subst hl
        simpa [StoryBook.joinLines] using h
      · cases hl
    | cons l2 r2 =>
      rcases List.mem_cons.mp hmem with hl | hl
      · subst hl
        show strContains (line ++ "\n" ++ StoryBook.joinLines (l2 :: r2))
          pat = true
        exact strContains_append_right _ _ _
          (strContains_append_right _ _ _ h)
      · show strContains (l ++ "\n" ++ StoryBook.joinLines (l2 :: r2))
          pat = true
        exact strContains_append_left _ _ _ (ih hl)

/-! ### Rendering lemmas -/

theorem nodeLine_contains_mark (show_time : Bool) (pre : String)
    (il : Bool) (n : StoryNode) :
    strContains (StoryBook.nodeLine show_time pre il n)
      (StoryBook.mark n) = true := by
  unfold StoryBook.nodeLine
  apply strContains_append_right
  apply strContains_append_left
  exact strContains_self _

theorem walk_cons (b : StoryBook) (show_time : Bool) (fuel : Nat)
    (nid pre : String) (il : Bool) (n : StoryNode)
    (h : alookup b.nodes nid = some n) :
    ∃ tl, StoryBook.walk b show_time (fuel + 1) nid pre il =
      StoryBook.nodeLine show_time pre il n :: tl := by
  simp only [StoryBook.walk, h]
  split
  · exact ⟨[], rfl⟩
  · exact ⟨_, rfl⟩

end BeautifulOops

namespace BeautifulOops

/-! ### Concrete sample data used by witnesses and counterexamples -/

/-- An already-normalized error: a wrapped timeout whose internal
`message` differs from its external `safe_message`. -/
def sampleOops : Exc :=
  .oops (.raw { strRepr := "read timed out after 31s", typeName := "TimeoutError" })
    "read timed out after 31s" "Operation timed out."
    .timeout .RETRY []

/-- A book holding one running moment and one running attempt, built
through the aggregator API (`enter` then `attempt_enter`). -/
def sampleBook : StoryBook :=
  (StoryBook.attempt_enter
    ((StoryBook.enter { title := "adventure" } "tid" "ch" "st" none 1).1)
    "tid" "ch" "st" 1 none none 2).1

/-- The moment node stored by `sampleBook` under `"tid:ch/st"`. -/
def sampleMoment : StoryNode :=
  { node_id := "tid:ch/st", node_type := .MOMENT, chapter := "ch",
    stage := "st", started_at := 1, children := ["tid:ch/st#1"] }

/-- The attempt node stored by `sampleBook` under `"tid:ch/st#1"`. -/
def sampleAttempt : StoryNode :=
  { node_id := "tid:ch/st#1", node_type := .ATTEMPT, chapter := "ch",
    stage := "st", attempt := some 1, parent_id := some "tid:ch/st",
    started_at := 2 }

end BeautifulOops

namespace BeautifulOops

/-- Claim C3 (amended): a close always overwrites the footprint's
status with its own status argument, so after a second close the status
is the second close's status — the last close wins for `status`; only
the end timestamp is fixed by the first close. -/
theorem claim_C3 (n : StoryNode) (st₁ st₂ : NodeStatus)
    (note₁ note₂ : Option String) (t₁ t₂ : Nat) :
    ((n.close st₁ note₁ t₁).close st₂ note₂ t₂).status = st₂ :=
  close_status _ _ _ _

/-- Claim C3 counterexample: a running attempt node closed to SUCCESS
and then closed again to FAILED ends with status FAILED, not the status
set by the first close — refuting "first close wins" for the status
field. -/
theorem claim_C3_counterexample :
    ((sampleAttempt.close .SUCCESS none 3).close .FAILED none 4).status =
      NodeStatus.FAILED ∧
    (sampleAttempt.close .SUCCESS none 3).status = NodeStatus.SUCCESS := by
  decide

/-- Claim C7: footprint close is idempotent for the end timestamp — a
node open before the first close (and closed at a non-zero tick, as
`time.time()` always returns) keeps the first close's `finished_at`
through a second close. -/
theorem claim_C7 (n : StoryNode) (st₁ st₂ : NodeStatus)
    (note₁ note₂ : Option String) (t₁ t₂ : Nat)
    (hopen : n.finished_at = none) (hpos : t₁ ≠ 0) :
    (n.close st₁ note₁ t₁).finished_at = some t₁ ∧
    ((n.close st₁ note₁ t₁).close st₂ note₂ t₂).finished_at = some t₁ := by
  have h₁ : (n.close st₁ note₁ t₁).finished_at = some t₁ := by
    rw [close_finished_eq, hopen]
    simp [optTimeTruthy]
  refine ⟨h₁, ?_⟩
  rw [close_finished_eq, h₁]
  simp [optTimeTruthy, hpos]

/-- Claim C7 witness: the general theorem applied to the sample attempt
node, closed at tick 3 and again at tick 9. -/
theorem claim_C7_witness :
    (sampleAttempt.finished_at = none ∧ (3 : Nat) ≠ 0) ∧
    ((sampleAttempt.close .FAILED none 3).finished_at = some 3 ∧
     ((sampleAttempt.close .FAILED none 3).close .SUCCESS none
       9).finished_at = some 3) :=
  ⟨by decide, claim_C7 sampleAttempt .FAILED .SUCCESS none none 3 9
    (by decide) (by decide)⟩

/-- Claim C10: when the attempt id is absent from the node map,
`attempt_success` and `attempt_fail` return the book unchanged — no
Treasure, no Tear, no node closed. -/
theorem claim_C10 (b : StoryBook) (attempt_id : String) (result : PyVal)
    (oops : Option Exc) (t₁ t₂ : Nat)
    (h : alookup b.nodes attempt_id = none) :
    StoryBook.attempt_success b attempt_id result t₁ = b ∧
    StoryBook.attempt_fail b attempt_id oops t₂ = b := by
  constructor <;>
    simp only [StoryBook.attempt_success, StoryBook.attempt_fail, h]

/-- Claim C10 witness: the sample book has no node `"missing"`, and both
operations on that id leave it unchanged. -/
theorem claim_C10_witness :
    alookup sampleBook.nodes "missing" = none ∧
    (StoryBook.attempt_success sampleBook "missing" (.pyInt 7) 5 =
      sampleBook ∧
     StoryBook.attempt_fail sampleBook "missing" (some sampleOops) 6 =
      sampleBook) :=
  ⟨by decide, claim_C10 sampleBook "missing" (.pyInt 7) (some sampleOops)
    5 6 (by decide)⟩

/-- Claim C2 (code bug): `OopsError.of` applied to an already-normalized
error does not return it unchanged — it builds a fresh `OopsError` whose
`cause` is the given error, and reclassification of the wrapper loses
the original category (the sample timeout reclassifies as UNKNOWN). -/
theorem claim_C2 :
    (oopsErrorOf sampleOops).causeOf = some sampleOops ∧
    (oopsErrorOf sampleOops).categoryOf = OopsCategory.unknown ∧
    sampleOops.categoryOf = OopsCategory.timeout ∧
    oopsErrorOf sampleOops ≠ sampleOops := by
  refine ⟨rfl, by decide, by decide, ?_⟩
  intro h
  have hcat : (oopsErrorOf sampleOops).categoryOf =
      sampleOops.categoryOf := congrArg Exc.categoryOf h
  rw [show (oopsErrorOf sampleOops).categoryOf = OopsCategory.unknown
      from by decide] at hcat
  rw [show sampleOops.categoryOf = OopsCategory.timeout
      from by decide] at hcat
  cases hcat

end BeautifulOops

namespace BeautifulOops

/-- `_ensure_node` on an id that is already in the dict returns the
book unchanged together with the stored node. -/
theorem ensure_node_of_some (b : StoryBook) (nid : String)
    (nt : NodeType) (ch st : String) (a : Option Nat)
    (p : Option String) (now : Nat) (w : StoryNode)
    (h : alookup b.nodes nid = some w) :
    StoryBook.ensure_node b nid nt ch st a p now = (b, w) := by
  unfold StoryBook.ensure_node
  rw [h]

/-- Claim C9: `StoryBook.enter` is idempotent — a second `enter` with
the same trace id, chapter and stage returns the same moment id and the
unchanged book (no new node, no new root, no new child entry), whatever
tick it happens at. -/
theorem claim_C9 (b : StoryBook) (tid ch st : String)
    (ps : Option String) (t₁ t₂ : Nat) :
    StoryBook.enter (StoryBook.enter b tid ch st ps t₁).1 tid ch st ps
      t₂ = StoryBook.enter b tid ch st ps t₁ := by
  simp only [StoryBook.enter]
  have hs := ensure_node_isSome b (StoryBook.build_moment_id tid ch st)
    .MOMENT ch st none ps t₁
  cases h : alookup (StoryBook.ensure_node b
      (StoryBook.build_moment_id tid ch st) .MOMENT ch st none ps
      t₁).1.nodes (StoryBook.build_moment_id tid ch st) with
  | none => rw [h] at hs; cases hs
  | some w => rw [ensure_node_of_some _ _ _ _ _ _ _ _ _ h]

/-- Claim C1 (amended): the failure text recorded by the aggregator is
the error's internal `message` attribute (falling back to `str(oops)`
for an object without one), not its `safe_message`: `attempt_fail`
stores it in the closed node's `error` field, and `fail` appends a Tear
carrying it. -/
theorem claim_C1 (b : StoryBook) (attempt_id : String) (node : StoryNode)
    (o : Exc) (now : Nat) (b₂ : StoryBook) (tid ch st : String)
    (now₂ : Nat) (hn : alookup b.nodes attempt_id = some node) :
    ((alookup (StoryBook.attempt_fail b attempt_id (some o) now).nodes
      attempt_id).map StoryNode.error) =
      some (some (StoryBook.oopsMessageAttr o)) ∧
    (StoryBook.fail b₂ tid ch st (some o) now₂).tears =
      b₂.tears ++ [⟨ch, st, StoryBook.oopsMessageAttr o, now₂⟩] := by
  have hs : (alookup b.nodes attempt_id).isSome = true := by
    rw [hn]; rfl
  constructor
  · simp only [StoryBook.attempt_fail, hn]
    rw [alookup_aupdate_self _ _ _ hs]
    simp [close_error]
  · simp only [StoryBook.fail]
    rw [ensure_node_tears]

/-- Claim C1 counterexample: failing the sample attempt with a
normalized timeout error records the internal diagnostic text
`"read timed out after 31s"` as the node note and as the Tear text,
while the error's safe message is `"Operation timed out."` — the
user-visible failure text is not the safe message. -/
theorem claim_C1_counterexample :
    ((alookup (StoryBook.attempt_fail sampleBook "tid:ch/st#1"
      (some sampleOops) 3).nodes "tid:ch/st#1").map StoryNode.note) =
      some (some "read timed out after 31s") ∧
    sampleOops.safeMessageOf = "Operation timed out." ∧
    ("read timed out after 31s" : String) ≠ "Operation timed out." ∧
    (StoryBook.fail sampleBook "tid" "ch" "st" (some sampleOops)
      4).tears = [⟨"ch", "st", "read timed out after 31s", 4⟩] := by
  decide

/-- Claim C1 witness: the amended theorem applied to the sample book and
the sample normalized error. -/
theorem claim_C1_witness :
    alookup sampleBook.nodes "tid:ch/st#1" = some sampleAttempt ∧
    (((alookup (StoryBook.attempt_fail sampleBook "tid:ch/st#1"
      (some sampleOops) 3).nodes "tid:ch/st#1").map StoryNode.error) =
      some (some (StoryBook.oopsMessageAttr sampleOops)) ∧
     (StoryBook.fail sampleBook "tid" "ch" "st" (some sampleOops)
       4).tears = sampleBook.tears ++
         [⟨"ch", "st", StoryBook.oopsMessageAttr sampleOops, 4⟩]) :=
  ⟨by decide, claim_C1 sampleBook "tid:ch/st#1" sampleAttempt sampleOops
    3 sampleBook "tid" "ch" "st" 4 (by decide)⟩

end BeautifulOops

namespace BeautifulOops

/-- A raw exception carrying a direct integer `status_code` of 429. -/
def rateLimited : Exc :=
  .raw { statusCode := some 429, strRepr := "too many requests" }

/-- Claim C5: a failure not matched by classification steps 1–4 whose
recovered protocol status is 429 classifies as RATE_LIMIT with status
429, and the `OopsError` built from it by `of` carries
`extra["http_status"] == 429`. -/
theorem claim_C5 (e : Exc) (m : String)
    (h₁ : e.isTimeoutLike = false) (h₂ : e.isConnLike = false)
    (h₃ : e.isValidationLike = false)
    (h₄ : (e.isOSErrorLike && (match e.errnoOf with
      | some n => decide (n ∈ ioErrnos)
      | none => false)) = false)
    (h₅ : guessHttpStatus e = some 429) :
    classifyException e m = (.rate_limit, some 429) ∧
    (oopsErrorOf e).categoryOf = OopsCategory.rate_limit ∧
    alookup (oopsErrorOf e).extraOf "http_status" = some 429 := by
  have hcls : ∀ msg, classifyException e msg = (.rate_limit, some 429) := by
    intro msg
    simp [classifyException, h₁, h₂, h₃, h₄, h₅]
  refine ⟨hcls m, ?_, ?_⟩
  · simp only [oopsErrorOf, oopsErrorInit, hcls]
    rfl
  · simp only [oopsErrorOf, oopsErrorInit, hcls]
    rfl

/-- Claim C5 witness: the theorem applied to a raw failure whose direct
`status_code` attribute is 429. -/
theorem claim_C5_witness :
    (rateLimited.isTimeoutLike = false ∧ rateLimited.isConnLike = false ∧
     rateLimited.isValidationLike = false ∧
     guessHttpStatus rateLimited = some 429) ∧
    (classifyException rateLimited "too many requests" =
      (.rate_limit, some 429) ∧
     (oopsErrorOf rateLimited).categoryOf = OopsCategory.rate_limit ∧
     alookup (oopsErrorOf rateLimited).extraOf "http_status" =
       some 429) :=
  ⟨by decide, claim_C5 rateLimited "too many requests" (by decide)
    (by decide) (by decide) (by decide) (by decide)⟩

/-- Claim C4 counterexample: the substring step never lowercases the
message, so `"Service Unavailable"` (mixed case) falls through to
UNKNOWN instead of NETWORK+503; and a message containing
`"invalid_request_error"` is captured first by the `"invalid"` rule, so
it classifies VALIDATION+400, not BAD_REQUEST+400. -/
theorem claim_C4_counterexample :
    classifyException (.raw {}) "Service Unavailable" =
      (.unknown, none) ∧
    classifyException (.raw {}) "invalid_request_error" =
      (.validation, some 400) ∧
    OopsCategory.unknown ≠ OopsCategory.network ∧
    OopsCategory.validation ≠ OopsCategory.bad_request := by
  decide

/-- Claim C4 (amended): for a failure not matched by steps 1–5, the
substring rules apply case-sensitively to the message as stored and in
source order: a message containing `"service unavailable"` or
`"socket closed"` gives NETWORK+503; otherwise one containing
`"validation"`, `"invalid"` or `"schema"` gives VALIDATION+400;
otherwise one containing `"badrequest"` or `"invalid_request_error"`
gives BAD_REQUEST+400 (in practice only `"badrequest"`, since
`"invalid_request_error"` contains `"invalid"`). -/
theorem claim_C4 (e : Exc) (m : String)
    (h₁ : e.isTimeoutLike = false) (h₂ : e.isConnLike = false)
    (h₃ : e.isValidationLike = false)
    (h₄ : (e.isOSErrorLike && (match e.errnoOf with
      | some n => decide (n ∈ ioErrnos)
      | none => false)) = false)
    (h₅ : ∀ s, guessHttpStatus e = some s →
      s ≠ 429 ∧ s ≠ 401 ∧ s ≠ 403 ∧ ¬(500 ≤ s ∧ s ≤ 599) ∧ s ≠ 408) :
    ((strContains m "service unavailable" ||
        strContains m "socket closed") = true →
      classifyException e m = (.network, some 503)) ∧
    ((strContains m "service unavailable" ||
        strContains m "socket closed") = false →
     (strContains m "validation" || strContains m "invalid" ||
        strContains m "schema") = true →
      classifyException e m = (.validation, some 400)) ∧
    ((strContains m "service unavailable" ||
        strContains m "socket closed") = false →
     (strContains m "validation" || strContains m "invalid" ||
        strContains m "schema") = false →
     (strContains m "badrequest" ||
        strContains m "invalid_request_error") = true →
      classifyException e m = (.bad_request, some 400)) := by
  cases hg : guessHttpStatus e with
  | none =>
    refine ⟨?_, ?_, ?_⟩
    · intro hnet
      simp [classifyException, h₁, h₂, h₃, h₄, hg, hnet]
    · intro hnet hval
      simp [classifyException, h₁, h₂, h₃, h₄, hg, hnet, hval]
    · intro hnet hval hbad
      simp [classifyException, h₁, h₂, h₃, h₄, hg, hnet, hval, hbad]
  | some s =>
    obtain ⟨k₁, k₂, k₃, k₄, k₅⟩ := h₅ s hg
    refine ⟨?_, ?_, ?_⟩
    · intro hnet
      simp [classifyException, h₁, h₂, h₃, h₄, hg, hnet, k₁, k₂, k₃,
        k₄, k₅]
    · intro hnet hval
      simp [classifyException, h₁, h₂, h₃, h₄, hg, hnet, hval, k₁, k₂,
        k₃, k₄, k₅]
    · intro hnet hval hbad
      simp [classifyException, h₁, h₂, h₃, h₄, hg, hnet, hval, hbad,
        k₁, k₂, k₃, k₄, k₅]

/-- Claim C4 witness: the amended theorem applied to an attribute-free
raw failure, on concrete messages hitting each of the three substring
groups. -/
theorem claim_C4_witness :
    ((Exc.raw {}).isTimeoutLike = false ∧
     strContains "oh socket closed now" "socket closed" = true) ∧
    classifyException (.raw {}) "oh socket closed now" =
      (.network, some 503) :=
  ⟨by decide,
   (claim_C4 (.raw {}) "oh socket closed now" (by decide) (by decide)
     (by decide) (by decide)
     (by intro s hs; cases hs)).1 (by decide)⟩

end BeautifulOops

namespace BeautifulOops

/-- Claim C6: recording a success closes the matching attempt footprint
to SUCCESS, closes the owning (still running) moment footprint to
SUCCESS, and appends exactly one Treasure carrying the returned
value. -/
theorem claim_C6 (b : StoryBook) (attempt_id pid : String)
    (node m : StoryNode) (result : PyVal) (now : Nat)
    (hn : alookup b.nodes attempt_id = some node)
    (hpid : StoryBook.optStrOr node.parent_id
      (StoryBook.parse_moment_id_from_attempt attempt_id) = pid)
    (hne : pid ≠ attempt_id)
    (hm : alookup b.nodes pid = some m)
    (hrun : m.status = NodeStatus.RUNNING) :
    ((alookup (StoryBook.attempt_success b attempt_id result now).nodes
      attempt_id).map StoryNode.status) = some NodeStatus.SUCCESS ∧
    ((alookup (StoryBook.attempt_success b attempt_id result now).nodes
      pid).map StoryNode.status) = some NodeStatus.SUCCESS ∧
    (StoryBook.attempt_success b attempt_id result now).treasures =
      b.treasures ++ [⟨node.chapter, node.stage, result, now⟩] := by
  simp only [StoryBook.attempt_success, hn]
  set n2 := (({ node with result := result } : StoryNode).close
    NodeStatus.SUCCESS none now) with hn2def
  have hpp : n2.parent_id = node.parent_id := by
    rw [hn2def, close_parent_id]
  have hlook1 : alookup (aupdate b.nodes attempt_id n2) pid = some m := by
    rw [alookup_aupdate_ne _ _ _ _ hne]
    exact hm
  have hlook2 : alookup (aupdate b.nodes attempt_id n2) attempt_id =
      some n2 :=
    alookup_aupdate_self _ _ _ (by rw [hn]; rfl)
  rw [hpp, hpid]
  simp only [hlook1, hrun, if_true]
  refine ⟨?_, ?_, ?_⟩
  · rw [alookup_aupdate_ne _ _ _ _ (Ne.symm hne), hlook2]
    simp [hn2def, close_status]
  · rw [alookup_aupdate_self _ _ _ (by rw [hlook1]; rfl)]
    simp [close_status]
  · simp [hn2def, close_chapter, close_stage]

/-- Claim C6 witness: the theorem applied to the sample book — success
of attempt `"tid:ch/st#1"` with value 42 at tick 3. -/
theorem claim_C6_witness :
    (alookup sampleBook.nodes "tid:ch/st#1" = some sampleAttempt ∧
     StoryBook.optStrOr sampleAttempt.parent_id
       (StoryBook.parse_moment_id_from_attempt "tid:ch/st#1") =
       "tid:ch/st" ∧
     ("tid:ch/st" : String) ≠ "tid:ch/st#1" ∧
     alookup sampleBook.nodes "tid:ch/st" = some sampleMoment ∧
     sampleMoment.status = NodeStatus.RUNNING) ∧
    (((alookup (StoryBook.attempt_success sampleBook "tid:ch/st#1"
      (.pyInt 42) 3).nodes "tid:ch/st#1").map StoryNode.status) =
      some NodeStatus.SUCCESS ∧
     ((alookup (StoryBook.attempt_success sampleBook "tid:ch/st#1"
      (.pyInt 42) 3).nodes "tid:ch/st").map StoryNode.status) =
      some NodeStatus.SUCCESS ∧
     (StoryBook.attempt_success sampleBook "tid:ch/st#1" (.pyInt 42)
       3).treasures = sampleBook.treasures ++
       [⟨sampleAttempt.chapter, sampleAttempt.stage, .pyInt 42, 3⟩]) :=
  ⟨by decide, claim_C6 sampleBook "tid:ch/st#1" "tid:ch/st"
    sampleAttempt sampleMoment (.pyInt 42) 3 (by decide) (by decide)
    (by decide) (by decide) (by decide)⟩

end BeautifulOops

namespace BeautifulOops

end BeautifulOops

namespace BeautifulOops

/-- A children-link path through the stored nodes, mirroring exactly how
the rendering `walk` moves: from the node at `nid` to a child id listed
in its `children`, resolving that id through the dict and continuing at
the resolved node's own `node_id`; `path` collects the ids visited after
`nid`.  `ChildPath b rid target path` with `rid` a root is "the walk
starting at root `rid` reaches `target`". -/
inductive ChildPath (b : StoryBook) : String → String → List String → Prop where
  | here (nid : String) : ChildPath b nid nid []
  | there (nid : String) (n : StoryNode) (cid : String) (ch : StoryNode)
      (target : String) (rest : List String)
      (hn : alookup b.nodes nid = some n)
      (hc : cid ∈ n.children)
      (hch : alookup b.nodes cid = some ch)
      (htail : ChildPath b ch.node_id target rest) :
      ChildPath b nid target (ch.node_id :: rest)

/-- A book holding a single RUNNING moment that is reachable from no
root: `enter` was given a `parent_span_id` naming an absent parent, so
the node lands in the dict but in neither `roots` nor any `children`
list. -/
def orphanBook : StoryBook :=
  (StoryBook.enter { title := "t" } "tid" "ch" "st" (some "ghost") 1).1

/-- A successful lookup key occurs among the dict's keys. -/
theorem alookup_isSome_mem_keys {α : Type} (l : List (String × α))
    (k : String) (h : (alookup l k).isSome = true) :
    k ∈ l.map Prod.fst := by
  induction l with
  | nil => simp [alookup] at h
  | cons p rest ih =>
    obtain ⟨a, c⟩ := p
    by_cases hak : a = k
    · subst hak
      simp
    · simp only [alookup, if_neg hak] at h
      simp [ih h]

/-- A list member occurs at some index of `enumFrom`. -/
theorem mem_enumFrom_of_mem {α : Type} (a : α) :
    ∀ (l : List α) (n : Nat), a ∈ l →
    ∃ i, (i, a) ∈ List.enumFrom n l := by
  intro l
  induction l with
  | nil => intro n h; cases h
  | cons x xs ih =>
    intro n h
    rcases List.mem_cons.mp h with hx | hx
    · subst hx
      exact ⟨n, by simp [List.enumFrom]⟩
    · obtain ⟨i, hi⟩ := ih (n + 1) hx
      exact ⟨i, by simp [List.enumFrom, hi]⟩

/-- A list member occurs at some index of `enum`. -/
theorem mem_enum_of_mem {α : Type} (a : α) (l : List α) (h : a ∈ l) :
    ∃ i, (i, a) ∈ l.enum :=
  mem_enumFrom_of_mem a l 0 h

/-- Every id visited along a child path resolves in the dict (the start
and each intermediate step by construction, the target by the given
lookup). -/
theorem childPath_keys {b : StoryBook} {nid target : String}
    {path : List String} (hp : ChildPath b nid target path)
    (ht : (alookup b.nodes target).isSome = true) :
    ∀ x ∈ nid :: path, (alookup b.nodes x).isSome = true := by
  induction hp with
  | here nid =>
    intro x hx
    rcases List.mem_cons.mp hx with h | h
    · subst h
      exact ht
    · cases h
  | there nid n cid ch target rest hn hc hch htail ih =>
    intro x hx
    rcases List.mem_cons.mp hx with h | h
    · subst h
      rw [hn]
      rfl
    · exact ih ht x h

end BeautifulOops

namespace BeautifulOops

/-- The `walk` of `render_ascii` emits the target node's own line for
every child path from its start, given enough fuel for the path's
length (one unit per level, as the recursion consumes). -/
theorem walk_renders_path (b : StoryBook) (show_time : Bool)
    {nid target : String} {path : List String}
    (hp : ChildPath b nid target path) :
    ∀ (tn : StoryNode), alookup b.nodes target = some tn →
    ∀ (fuel : Nat), path.length < fuel →
    ∀ (pre : String) (il : Bool),
    ∃ pre₂ il₂, StoryBook.nodeLine show_time pre₂ il₂ tn ∈
      StoryBook.walk b show_time fuel nid pre il := by
  induction hp with
  | here nid =>
    intro tn htn fuel hfuel pre il
    cases fuel with
    | zero => exact absurd hfuel (Nat.not_lt_zero _)
    | succ f =>
      obtain ⟨tl, htl⟩ := walk_cons b show_time f nid pre il tn htn
      exact ⟨pre, il, by rw [htl]; exact List.mem_cons_self _ _⟩
  | there nid n cid ch target rest hn hc hch htail ih =>
    intro tn htn fuel hfuel pre il
    cases fuel with
    | zero => exact absurd hfuel (Nat.not_lt_zero _)
    | succ f =>
      have hflen : rest.length < f := by
        simp only [List.length_cons] at hfuel
        omega
      have hchmem : ch ∈ StoryBook.get_children b nid := by
        simp only [StoryBook.get_children, hn]
        exact List.mem_filterMap.mpr ⟨cid, hc, hch⟩
      obtain ⟨i, hi⟩ := mem_enum_of_mem ch (StoryBook.get_children b nid)
        hchmem
      obtain ⟨pre₂, il₂, hline⟩ := ih tn htn f hflen
        (pre ++ (if il then "    " else "┃   "))
        (decide (i = (StoryBook.get_children b nid).length - 1))
      refine ⟨pre₂, il₂, ?_⟩
      simp only [StoryBook.walk, hn]
      have hne : (StoryBook.get_children b nid).isEmpty = false := by
        cases hcc : StoryBook.get_children b nid with
        | nil => rw [hcc] at hchmem; cases hchmem
        | cons _ _ => rfl
      simp only [hne, Bool.false_eq_true, if_false]
      apply List.mem_cons_of_mem
      exact List.mem_flatMap.mpr ⟨(i, ch), hi, hline⟩

/-- Every line of the `walk` of a listed root is a line of the root
loop's output. -/
theorem renderRoots_sub (b : StoryBook) (show_time : Bool)
    (fuel total : Nat) :
    ∀ (l : List String) (idx : Nat) (rid : String), rid ∈ l →
    ∃ il, ∀ x ∈ StoryBook.walk b show_time fuel rid "" il,
      x ∈ StoryBook.renderRoots b show_time fuel total idx l := by
  intro l
  induction l with
  | nil => intro idx rid h; cases h
  | cons r rest ih =>
    intro idx rid h
    rcases List.mem_cons.mp h with h | h
    · subst h
      refine ⟨decide (idx = total - 1), fun x hx => ?_⟩
      simp only [StoryBook.renderRoots]
      exact List.mem_append_left _ hx
    · obtain ⟨il, hil⟩ := ih (idx + 1) rid h
      refine ⟨il, fun x hx => ?_⟩
      simp only [StoryBook.renderRoots]
      exact List.mem_append_right _ (hil x hx)

/-- Claim C8 (amended): rendering is a read-only total function of the
book, and every RUNNING node the rendering reaches — any node connected
to a root by a duplicate-free children-link path, which covers nested
running attempts — is rendered with its own line carrying the distinct
in-progress marker `⏳` (distinct from the `✅`/`💀` terminal glyphs)
rather than omitted; a RUNNING node reachable from no root is omitted
entirely (see the counterexample). -/
theorem claim_C8 (b : StoryBook) (show_time : Bool)
    (rid target : String) (path : List String) (tn : StoryNode)
    (hr : rid ∈ b.roots)
    (hp : ChildPath b rid target path)
    (hnodup : (rid :: path).Nodup)
    (htn : alookup b.nodes target = some tn)
    (hst : tn.status = NodeStatus.RUNNING) :
    StoryBook.mark tn = "⏳" ∧
    (∃ line ∈ StoryBook.render_lines b show_time,
      (∃ pre₂ il₂, line = StoryBook.nodeLine show_time pre₂ il₂ tn) ∧
      strContains line "⏳" = true) ∧
    strContains (StoryBook.render_ascii b show_time) "⏳" = true := by
  have hmark : StoryBook.mark tn = "⏳" := by
    simp [StoryBook.mark, hst]
  have hkeys := childPath_keys hp (by rw [htn]; rfl)
  have hsubkeys : (rid :: path) ⊆ b.nodes.map Prod.fst := by
    intro x hx
    exact alookup_isSome_mem_keys _ _ (hkeys x hx)
  have hlen : (rid :: path).length ≤ b.nodes.length := by
    have hle := List.Subperm.length_le
      (List.subperm_of_subset hnodup hsubkeys)
    simpa using hle
  have hflen : path.length < b.nodes.length + 1 := by
    simp only [List.length_cons] at hlen
    omega
  have hrpres : rid ∈ b.roots.filter
      (fun r => (alookup b.nodes r).isSome) :=
    List.mem_filter.mpr ⟨hr, hkeys rid (List.mem_cons_self _ _)⟩
  obtain ⟨il, hsub⟩ := renderRoots_sub b show_time (b.nodes.length + 1)
    b.roots.length (b.roots.filter fun r => (alookup b.nodes r).isSome)
    0 rid hrpres
  obtain ⟨pre₂, il₂, hline⟩ := walk_renders_path b show_time hp tn htn
    (b.nodes.length + 1) hflen "" il
  have hmem : StoryBook.nodeLine show_time pre₂ il₂ tn ∈
      StoryBook.render_lines b show_time := by
    simp only [StoryBook.render_lines]
    exact hsub _ hline
  have hcont : strContains (StoryBook.nodeLine show_time pre₂ il₂ tn)
      "⏳" = true := by
    rw [← hmark]
    exact nodeLine_contains_mark show_time pre₂ il₂ tn
  refine ⟨hmark, ⟨_, hmem, ⟨pre₂, il₂, rfl⟩, hcont⟩, ?_⟩
  unfold StoryBook.render_ascii
  exact strContains_joinLines _ _ _ hmem hcont

/-- Claim C8 counterexample: a moment entered under an absent parent
span is RUNNING in the node map but reachable from no root, and
`render_ascii` omits it entirely — the output is empty and carries no
in-progress marker — refuting "renders every RUNNING node with a
distinct in-progress marker rather than omitting it" over all book
states. -/
theorem claim_C8_counterexample :
    (alookup orphanBook.nodes "tid:ch/st").map StoryNode.status =
      some NodeStatus.RUNNING ∧
    orphanBook.roots = [] ∧
    StoryBook.render_ascii orphanBook true = "" ∧
    strContains (StoryBook.render_ascii orphanBook true) "⏳" =
      false := by
  decide

/-- Claim C8 witness: the amended theorem applied to the sample book at
its nested RUNNING attempt `"tid:ch/st#1"`, reached from the root
`"tid:ch/st"` through its children list. -/
theorem claim_C8_witness :
    ("tid:ch/st" ∈ sampleBook.roots ∧
     (["tid:ch/st", "tid:ch/st#1"] : List String).Nodup ∧
     alookup sampleBook.nodes "tid:ch/st#1" = some sampleAttempt ∧
     sampleAttempt.status = NodeStatus.RUNNING) ∧
    (StoryBook.mark sampleAttempt = "⏳" ∧
     (∃ line ∈ StoryBook.render_lines sampleBook true,
       (∃ pre₂ il₂, line = StoryBook.nodeLine true pre₂ il₂
         sampleAttempt) ∧
       strContains line "⏳" = true) ∧
     strContains (StoryBook.render_ascii sampleBook true) "⏳" =
       true) :=
  ⟨by decide,
   claim_C8 sampleBook true "tid:ch/st" "tid:ch/st#1" ["tid:ch/st#1"]
     sampleAttempt (by decide)
     (ChildPath.there "tid:ch/st" sampleMoment "tid:ch/st#1"
       sampleAttempt "tid:ch/st#1" [] (by decide) (by decide)
       (by decide) (ChildPath.here "tid:ch/st#1"))
     (by decide) (by decide) (by decide)⟩

end BeautifulOops
